import Mathlib

/-!
Verification of the read/write concern (RWC) defaults manager declared in
src/mongo/db/read_write_concern_defaults.h.

The repository excerpt contains only the class declaration with its doc
comments; the member function bodies and the ReadThroughCache they build on
are not part of the excerpt.  Where a definition below embeds behaviour that
is not in the excerpt, its doc comment starts with "Modelled from the spec:"
and the behaviour follows the specification's words (which agree with the
header's own doc comments where those speak, e.g. `refreshIfNecessary`,
`invalidate`, `setDefault`, `observeDirectWriteToConfigSettings`,
`generateNewConcerns`, `setImplicitDefaultWriteConcernMajority`).

Time stamps (Date_t) are modelled as naturals; epochs (Timestamp
/ strictly increasing generation counter per the spec) as naturals; the
operation context is dropped, with the result of the fetch collaborator
passed explicitly where the real code would perform the lookup.
-/

/-- Read concern levels (repl::ReadConcernLevel). -/
inductive ReadConcernLevel
  | kLocalReadConcern
  | kAvailableReadConcern
  | kMajorityReadConcern
  | kLinearizableReadConcern
  | kSnapshotReadConcern
deriving DecidableEq, Repr

/-- A read concern descriptor (repl::ReadConcernArgs): a level plus
level-specific parameters; only the level matters for default suitability. -/
structure ReadConcern where
  level : ReadConcernLevel
deriving DecidableEq, Repr

/-- A write concern acknowledgment target: a node count or a mode string
(such as majority). -/
inductive WAck
  | wNumNodes (n : Nat)
  | wMode (mode : String)
deriving DecidableEq, Repr

/-- A write concern descriptor (WriteConcernOptions): an acknowledgment
requirement plus an optional timeout. -/
structure WriteConcern where
  w : Option WAck
  wTimeoutMs : Option Nat
deriving DecidableEq, Repr

/-- The persisted defaults document (RWConcernDefault): an epoch (the sole
freshness comparator), a setTime recorded at generation, and the two optional
concern descriptors. -/
structure RWConcernDefault where
  epoch : Nat
  setTime : Nat
  defaultReadConcern : Option ReadConcern
  defaultWriteConcern : Option WriteConcern
deriving DecidableEq, Repr

/-- A cache entry: a defaults value (none is the distinguished absent value,
meaning no defaults are configured) together with the wall-clock moment it
entered the cache (RWConcernDefaultAndTime's localUpdateWallClockTime).
Diagnostic only; never used for freshness. -/
structure CachedEntry where
  value : Option RWConcernDefault
  localUpdateWallClockTime : Nat
deriving DecidableEq, Repr

/-- Modelled from the spec: the single-key defaults cache state.  `entry` is
none exactly when no entry has ever been installed (the Absent state of the
state machine); `stale` records an invalidation that has not yet been
superseded by a refresh (Valid vs Stale). -/
structure CacheState where
  entry : Option CachedEntry
  stale : Bool
deriving DecidableEq, Repr

/-- The cache before the first ever lookup: Absent. -/
def initialCacheState : CacheState := ⟨none, false⟩

namespace ReadWriteConcernDefaults

/-- The _id of the persisted default read/write concern document
(read_write_concern_defaults.h line 63). -/
def kPersistedDocumentId : String := "ReadWriteConcernDefaults"

/-- The defaults value the cache currently holds, if any: none when the cache
is Absent or when the entry holds the distinguished absent value. -/
def cachedValue (c : CacheState) : Option RWConcernDefault :=
  c.entry.bind CachedEntry.value

/-- The epoch of the cached defaults value, if one is cached. -/
def cachedEpoch (c : CacheState) : Option Nat :=
  (cachedValue c).map RWConcernDefault.epoch

/-- Modelled from the spec: `setDefault` (body not in the excerpt) installs
the given value as the cache entry unconditionally, stamped with the current
wall time; the entry becomes Valid. -/
def setDefault (rwc : RWConcernDefault) (now : Nat) : CacheState :=
  ⟨some ⟨some rwc, now⟩, false⟩

/-- Modelled from the spec: `invalidate` (body not in the excerpt) marks the
current entry, if any, stale; it removes nothing and performs no fetch. -/
def invalidate (c : CacheState) : CacheState :=
  match c.entry with
  | none => c
  | some _ => { c with stale := true }

/-- The epoch-comparison rule: the fetched authoritative value replaces the
cache when it is absent, when no defaults value is cached, or when its epoch
is strictly greater than the cached one. -/
def shouldReplaceCache (cached fetched : Option RWConcernDefault) : Bool :=
  match fetched, cached with
  | none, _ => true
  | some _, none => true
  | some f, some cv => cv.epoch < f.epoch

/-- Modelled from the spec: `refreshIfNecessary` (body not in the excerpt;
header doc lines 144-148) looks up the latest defaults — here the lookup's
result is the `fetched` argument — and replaces the cache entry exactly when
the epoch-comparison rule says so, discarding the fetched value otherwise.
Completion of a refresh leaves the entry Valid either way. -/
def refreshIfNecessary (c : CacheState) (fetched : Option RWConcernDefault)
    (now : Nat) : CacheState :=
  if shouldReplaceCache (cachedValue c) fetched then ⟨some ⟨fetched, now⟩, false⟩
  else { c with stale := false }

/-- Result of one `read` (getDefault and friends): the value returned to the
caller, the cache state afterwards, and whether the fetch collaborator was
invoked (true only on a cold miss). -/
structure ReadResult where
  result : Option RWConcernDefault
  state : CacheState
  didFetch : Bool
deriving DecidableEq, Repr

/-- Modelled from the spec: a read through the cache.  A present entry — even
a stale one — is returned with no fetch; only in the Absent state does the
read go to the fetch collaborator (whose result is the `fetched` argument)
and install what it got. -/
def read (c : CacheState) (fetched : Option RWConcernDefault) (now : Nat) :
    ReadResult :=
  match c.entry with
  | some e => ⟨e.value, c, false⟩
  | none => ⟨fetched, ⟨some ⟨fetched, now⟩, false⟩, true⟩

/-- Projection of a read for getDefaultReadConcern. -/
def getDefaultReadConcern (c : CacheState) (fetched : Option RWConcernDefault)
    (now : Nat) : Option ReadConcern :=
  ((read c fetched now).result).bind RWConcernDefault.defaultReadConcern

/-- Projection of a read for getDefaultWriteConcern. -/
def getDefaultWriteConcern (c : CacheState) (fetched : Option RWConcernDefault)
    (now : Nat) : Option WriteConcern :=
  ((read c fetched now).result).bind RWConcernDefault.defaultWriteConcern

/-- A storage (I/O) failure of the fetch collaborator; distinct from the
normal absent result. -/
inductive StorageError
  | ioError (code : Nat)
deriving DecidableEq, Repr

/-- Modelled from the spec: a background refresh triggered after an
invalidation.  The fetch collaborator either fails with a storage error — in
which case the cache is left exactly as it was and no error is surfaced to
any reader — or yields an authoritative value to which the epoch-comparison
rule is applied. -/
def backgroundRefresh (c : CacheState)
    (fetchResult : Except StorageError (Option RWConcernDefault)) (now : Nat) :
    CacheState :=
  match fetchResult with
  | .error _ => c
  | .ok fetched => refreshIfNecessary c fetched now

/-- Modelled from the spec: `observeDirectWriteToConfigSettings` (header doc
lines 114-121) examines the _id of a document written to config.settings and
registers an onCommit handler that invalidates the cache exactly when the id
is the persisted defaults document id.  Registration itself changes nothing:
the returned state is the input state, paired with whether a handler was
registered.  The new document contents play no role in the decision. -/
def observeDirectWriteToConfigSettings (c : CacheState) (idElem : String)
    (newDoc : Option RWConcernDefault) : CacheState × Bool :=
  (c, idElem == kPersistedDocumentId)

/-- Outcome of the write unit of work that surrounded a direct write. -/
inductive TxnOutcome
  | commit
  | rollback
deriving DecidableEq, Repr

/-- Modelled from the spec: the transaction machinery runs a registered
onCommit handler exactly when the transaction commits; on rollback or abort
no handler runs and the cache is untouched. -/
def applyTxnOutcome (registered : Bool) (outcome : TxnOutcome)
    (c : CacheState) : CacheState :=
  match outcome with
  | .commit => if registered then invalidate c else c
  | .rollback => c

/-! ### Interleaved cache operations

Per-process histories of cache operations, for the epoch-monotonicity
property.  A step is one completed cache operation; the fetch collaborator's
answer for an operation that consults it travels with the operation. -/

/-- One cache operation of a per-process history. -/
inductive CacheOp
  | invalidateOp
  | refreshOp (fetched : Option RWConcernDefault) (now : Nat)
  | setDefaultOp (rwc : RWConcernDefault) (now : Nat)
  | readOp (fetched : Option RWConcernDefault) (now : Nat)
deriving DecidableEq, Repr

/-- The cache state after one operation. -/
def step (c : CacheState) : CacheOp → CacheState
  | .invalidateOp => invalidate c
  | .refreshOp fetched now => refreshIfNecessary c fetched now
  | .setDefaultOp rwc now => setDefault rwc now
  | .readOp fetched now => (read c fetched now).state

/-- The epochs a reader observes at one operation: a read that returns a
present defaults value observes its epoch; everything else observes nothing. -/
def opObservation (c : CacheState) : CacheOp → List Nat
  | .readOp fetched now =>
    match (read c fetched now).result with
    | some v => [v.epoch]
    | none => []
  | _ => []

/-- The epochs observed by the reads of a history, in order. -/
def runObs (c : CacheState) : List CacheOp → List Nat
  | [] => []
  | op :: ops => opObservation c op ++ runObs (step c op) ops

/-- Operations of a history under which epoch observations can be shown
monotone: `setDefault` (which installs unconditionally) is excluded, and a
refresh must have found the authoritative document present. -/
def allowedOp : CacheOp → Bool
  | .setDefaultOp _ _ => false
  | .refreshOp none _ => false
  | _ => true

/-! ### Cold-miss singleflight

The mutex-guarded singleflight state machine of the spec: an Absent cache, a
fetch-in-progress flag with its waiters, and the results handed to readers.
Readers arrive and the one dispatched fetch completes in any order. -/

/-- Modelled from the spec: the cold-miss coordination state.  `delivered`
records, newest first, each reader paired with the value its `read` call
returned; `fetchCount` counts calls to the fetch collaborator. -/
structure SingleflightState where
  installedValue : Option (Option RWConcernDefault)
  fetchInFlight : Bool
  waiters : List Nat
  fetchCount : Nat
  delivered : List (Nat × Option RWConcernDefault)
deriving DecidableEq, Repr

/-- The singleflight state with nothing installed and no fetch dispatched. -/
def initSingleflight : SingleflightState := ⟨none, false, [], 0, []⟩

/-- An event of the cold-miss interleaving: a reader arrives, or the
dispatched fetch completes with the authoritative value. -/
inductive SFEvent
  | arrive (reader : Nat)
  | fetchComplete (v : Option RWConcernDefault)
deriving DecidableEq, Repr

/-- Modelled from the spec: one transition of the singleflight machine.  An
arriving reader is served from an installed entry; otherwise it joins the
waiters of the fetch in flight, or — when none is — dispatches the one fetch.
A completing fetch installs its value and serves every waiter with it. -/
def sfStep (s : SingleflightState) : SFEvent → SingleflightState
  | .arrive i =>
    match s.installedValue with
    | some v => { s with delivered := (i, v) :: s.delivered }
    | none =>
      if s.fetchInFlight then { s with waiters := i :: s.waiters }
      else { s with fetchInFlight := true, fetchCount := s.fetchCount + 1,
                    waiters := [i] }
  | .fetchComplete v =>
    if s.fetchInFlight then
      { s with installedValue := some v, fetchInFlight := false, waiters := [],
               delivered := s.waiters.map (fun i => (i, v)) ++ s.delivered }
    else s

/-- The singleflight state after a sequence of events. -/
def sfRun (s : SingleflightState) : List SFEvent → SingleflightState
  | [] => s
  | e :: es => sfRun (sfStep s e) es

/-! ### The Defaults Manager -/

/-- Errors of the manager: validation failures surfaced to callers, and
invariant (programming) errors. -/
inductive RWCError
  | validationError
  | invariantViolation
deriving DecidableEq, Repr

/-- Modelled from the spec: `isSuitableReadConcernLevel` (body not in the
excerpt) allows the levels safe as a cluster-wide default — local, available
and majority — and excludes the per-request transactional levels. -/
def isSuitableReadConcernLevel : ReadConcernLevel → Bool
  | .kLocalReadConcern => true
  | .kAvailableReadConcern => true
  | .kMajorityReadConcern => true
  | _ => false

/-- Modelled from the spec: a write concern is suitable as a default when its
acknowledgment target is present and well-formed (an unacknowledged node
count of zero is not a durable default). -/
def isSuitableWriteConcern (wc : WriteConcern) : Bool :=
  match wc.w with
  | none => false
  | some (.wNumNodes 0) => false
  | some _ => true

/-- Modelled from the spec: `checkSuitabilityAsDefault` for a read concern
uasserts — here, returns a validation error — when the level is unsuitable. -/
def checkSuitabilityAsDefaultRC (rc : ReadConcern) : Except RWCError Unit :=
  if isSuitableReadConcernLevel rc.level then Except.ok ()
  else Except.error RWCError.validationError

/-- Modelled from the spec: `checkSuitabilityAsDefault` for a write concern. -/
def checkSuitabilityAsDefaultWC (wc : WriteConcern) : Except RWCError Unit :=
  if isSuitableWriteConcern wc then Except.ok ()
  else Except.error RWCError.validationError

/-- An optional field is validated exactly when present. -/
def validateOptional {α : Type} (check : α → Except RWCError Unit) :
    Option α → Except RWCError Unit
  | some a => check a
  | none => Except.ok ()

/-- The manager: the owned defaults cache (_defaults), the highest epoch this
manager has generated so far (the strictly increasing generation counter of
the spec), and the startup-only implicit-majority flag
(_implicitDefaultWriteConcernMajority, header line 190). -/
structure Manager where
  defaults : CacheState
  highestGeneratedEpoch : Nat
  implicitDefaultWriteConcernMajority : Option Bool
deriving DecidableEq, Repr

/-- Modelled from the spec: `generateNewConcerns` (header doc lines 123-132)
requires at least one of the optional concerns, validates each present one
via checkSuitabilityAsDefault, assigns an epoch strictly greater than any it
generated before together with the current setTime, and returns the new value
without touching the cache or durable storage. -/
def generateNewConcerns (m : Manager) (now : Nat) (rc : Option ReadConcern)
    (wc : Option WriteConcern) : Except RWCError (RWConcernDefault × Manager) :=
  if rc.isNone && wc.isNone then Except.error RWCError.validationError
  else
    match validateOptional checkSuitabilityAsDefaultRC rc with
    | Except.error e => Except.error e
    | Except.ok _ =>
      match validateOptional checkSuitabilityAsDefaultWC wc with
      | Except.error e => Except.error e
      | Except.ok _ =>
        Except.ok (⟨m.highestGeneratedEpoch + 1, now, rc, wc⟩,
          { m with highestGeneratedEpoch := m.highestGeneratedEpoch + 1 })

/-- Modelled from the spec: `setImplicitDefaultWriteConcernMajority` (header
doc lines 155-159) records the flag on first call; a later call with the same
value is a no-op, and one with a different value is a programming error that
fails fast. -/
def setImplicitDefaultWriteConcernMajority (m : Manager) (b : Bool) :
    Except RWCError Manager :=
  match m.implicitDefaultWriteConcernMajority with
  | none => Except.ok { m with implicitDefaultWriteConcernMajority := some b }
  | some old =>
    if old = b then Except.ok m else Except.error RWCError.invariantViolation

/-! ### Concrete sample values -/

/-- A write concern asking for two nodes. -/
def sampleWC2 : WriteConcern := ⟨some (WAck.wNumNodes 2), none⟩

/-- A defaults value with epoch 1. -/
def sampleE1 : RWConcernDefault := ⟨1, 0, none, some sampleWC2⟩

/-- A defaults value with epoch 2. -/
def sampleE2 : RWConcernDefault := ⟨2, 3, none, some sampleWC2⟩

/-- A defaults value with epoch 5. -/
def sampleE5 : RWConcernDefault := ⟨5, 0, none, some sampleWC2⟩

/-- A cache holding the epoch-1 value, Valid. -/
def cacheE1 : CacheState := ⟨some ⟨some sampleE1, 0⟩, false⟩

/-- A cache holding the epoch-1 value, Stale. -/
def staleCacheE1 : CacheState := ⟨some ⟨some sampleE1, 0⟩, true⟩

/-- A manager that has not generated anything and whose flag is unset. -/
def initialManager : Manager := ⟨initialCacheState, 0, none⟩

end ReadWriteConcernDefaults

namespace ReadWriteConcernDefaults

/-! ### Theorems -/

/-- C1: for every refreshIfNecessary call, after the fetch completes the
cache is replaced with the fetched value exactly when the fetched value is
absent, or no cached defaults value exists, or the fetched epoch is strictly
greater than the cached epoch; when the fetched epoch is equal to or less
than the cached epoch the fetched value is discarded and the cached entry is
unchanged. -/
theorem refreshIfNecessary_epoch_rule (c : CacheState)
    (fetched : Option RWConcernDefault) (now : Nat) :
    ((fetched = none ∨ cachedValue c = none ∨
        (∃ f cv, fetched = some f ∧ cachedValue c = some cv ∧ cv.epoch < f.epoch)) →
      (refreshIfNecessary c fetched now).entry = some ⟨fetched, now⟩) ∧
    (∀ f cv, fetched = some f → cachedValue c = some cv → f.epoch ≤ cv.epoch →
      (refreshIfNecessary c fetched now).entry = c.entry) := by
  constructor
  · rintro (rfl | hcv | ⟨f, cv, rfl, hcv, hlt⟩)
    · simp [refreshIfNecessary, shouldReplaceCache]
    · cases fetched <;> simp [refreshIfNecessary, shouldReplaceCache, hcv]
    · simp [refreshIfNecessary, shouldReplaceCache, hcv, hlt]
  · rintro f cv rfl hcv hle
    simp [refreshIfNecessary, shouldReplaceCache, hcv, Nat.not_lt.mpr hle]

/-- C1 witness: a fetched epoch-2 value replaces a cached epoch-1 value. -/
theorem refreshIfNecessary_epoch_rule_witness :
    (refreshIfNecessary cacheE1 (some sampleE2) 7).entry = some ⟨some sampleE2, 7⟩ :=
  (refreshIfNecessary_epoch_rule cacheE1 (some sampleE2) 7).1
    (Or.inr (Or.inr ⟨sampleE2, sampleE1, rfl, rfl, by decide⟩))

/-- C4: invalidate marks the current entry stale without removing it and
performs no fetch, and a read immediately afterwards performs no fetch and
returns the previously cached value, with the cache state untouched. -/
theorem invalidate_nonblocking (c : CacheState)
    (fetched : Option RWConcernDefault) (now : Nat)
    (hentry : c.entry.isSome = true) :
    (invalidate c).entry = c.entry ∧ (invalidate c).stale = true ∧
    cachedValue (invalidate c) = cachedValue c ∧
    (read (invalidate c) fetched now).didFetch = false ∧
    (read (invalidate c) fetched now).result = cachedValue c ∧
    (read (invalidate c) fetched now).state = invalidate c := by
  obtain ⟨e, he⟩ := Option.isSome_iff_exists.mp hentry
  simp [invalidate, read, cachedValue, he]

/-- C4 witness: after invalidating a cache holding the epoch-1 value, an
immediate read returns that value. -/
theorem invalidate_nonblocking_witness :
    (read (invalidate cacheE1) none 9).result = cachedValue cacheE1 :=
  (invalidate_nonblocking cacheE1 none 9 rfl).2.2.2.2.1

/-- C6: when the background refresh after an invalidation fails with a
storage error, the cache — stale flag and value alike — is exactly its prior
state, and a reader who has ever seen a cached value still reads that prior
value with no fetch and no error. -/
theorem backgroundRefresh_error_atomic (c : CacheState) (err : StorageError)
    (now : Nat) (fetched2 : Option RWConcernDefault) (now2 : Nat)
    (hentry : c.entry.isSome = true) :
    backgroundRefresh c (Except.error err) now = c ∧
    (read (backgroundRefresh c (Except.error err) now) fetched2 now2).result =
      cachedValue c ∧
    (read (backgroundRefresh c (Except.error err) now) fetched2 now2).didFetch =
      false := by
  obtain ⟨e, he⟩ := Option.isSome_iff_exists.mp hentry
  simp [backgroundRefresh, read, cachedValue, he]

/-- C6 witness: a storage error during the background refresh of a stale
epoch-1 cache leaves the cache exactly as it was. -/
theorem backgroundRefresh_error_atomic_witness :
    backgroundRefresh staleCacheE1 (Except.error (StorageError.ioError 5)) 4 =
      staleCacheE1 :=
  (backgroundRefresh_error_atomic staleCacheE1 (StorageError.ioError 5) 4 none 6
    rfl).1

/-- C5: a direct write to the defaults document registers an onCommit handler
without touching the cache at registration time; a rollback leaves the cache
unchanged, and a commit fires the one registered handler, transitioning the
present entry to Stale while keeping its value. -/
theorem observeDirectWrite_commit_gated (c : CacheState)
    (newDoc : Option RWConcernDefault) (hentry : c.entry.isSome = true) :
    (observeDirectWriteToConfigSettings c kPersistedDocumentId newDoc).1 = c ∧
    (observeDirectWriteToConfigSettings c kPersistedDocumentId newDoc).2 = true ∧
    applyTxnOutcome (observeDirectWriteToConfigSettings c kPersistedDocumentId
      newDoc).2 TxnOutcome.rollback c = c ∧
    (applyTxnOutcome (observeDirectWriteToConfigSettings c kPersistedDocumentId
      newDoc).2 TxnOutcome.commit c).stale = true ∧
    (applyTxnOutcome (observeDirectWriteToConfigSettings c kPersistedDocumentId
      newDoc).2 TxnOutcome.commit c).entry = c.entry := by
  obtain ⟨e, he⟩ := Option.isSome_iff_exists.mp hentry
  simp [observeDirectWriteToConfigSettings, applyTxnOutcome, invalidate, he]

/-- C5 witness: committing a direct write observed on a Valid epoch-1 cache
leaves the entry in place but Stale. -/
theorem observeDirectWrite_commit_gated_witness :
    (applyTxnOutcome (observeDirectWriteToConfigSettings cacheE1
      kPersistedDocumentId (some sampleE2)).2 TxnOutcome.commit cacheE1).stale =
      true :=
  (observeDirectWrite_commit_gated cacheE1 (some sampleE2) rfl).2.2.2.1

/-- C10: observeDirectWriteToConfigSettings registers a commit-time handler
exactly when the written document id equals kPersistedDocumentId, whose value
is the string ReadWriteConcernDefaults; registration never changes the cache,
so a non-matching id registers nothing and leaves the cache unchanged. -/
theorem observeDirectWrite_registers_iff (c : CacheState) (idElem : String)
    (newDoc : Option RWConcernDefault) :
    ((observeDirectWriteToConfigSettings c idElem newDoc).2 = true ↔
      idElem = kPersistedDocumentId) ∧
    kPersistedDocumentId = "ReadWriteConcernDefaults" ∧
    (observeDirectWriteToConfigSettings c idElem newDoc).1 = c := by
  refine ⟨?_, rfl, rfl⟩
  simp [observeDirectWriteToConfigSettings]

/-- Shape of a successful generation: the produced value and manager. -/
lemma generateNewConcerns_ok_core {m : Manager} {now : Nat}
    {rc : Option ReadConcern} {wc : Option WriteConcern} {v : RWConcernDefault}
    {m2 : Manager} (h : generateNewConcerns m now rc wc = Except.ok (v, m2)) :
    v = ⟨m.highestGeneratedEpoch + 1, now, rc, wc⟩ ∧
    m2 = { m with highestGeneratedEpoch := m.highestGeneratedEpoch + 1 } := by
  unfold generateNewConcerns at h
  split at h
  · exact absurd h (by simp)
  · split at h
    · exact absurd h (by simp)
    · split at h
      · exact absurd h (by simp)
      · simp only [Except.ok.injEq, Prod.mk.injEq] at h
        exact ⟨h.1.symm, h.2.symm⟩

/-- C7: a successful generateNewConcerns returns a value whose epoch is
strictly greater than the epoch of any value this manager generated before
(the manager records the new epoch as its highest), stamped with the current
setTime, and it leaves the cache untouched; any later successful generation
from the resulting manager produces a strictly greater epoch again. -/
theorem generateNewConcerns_fresh_epoch_and_frame (m : Manager) (now : Nat)
    (rc : Option ReadConcern) (wc : Option WriteConcern) (v : RWConcernDefault)
    (m2 : Manager) (h : generateNewConcerns m now rc wc = Except.ok (v, m2)) :
    m.highestGeneratedEpoch < v.epoch ∧ v.setTime = now ∧
    m2.defaults = m.defaults ∧ m2.highestGeneratedEpoch = v.epoch ∧
    (∀ now2 rc2 wc2 v2 m3,
      generateNewConcerns m2 now2 rc2 wc2 = Except.ok (v2, m3) →
      v.epoch < v2.epoch) := by
  obtain ⟨rfl, rfl⟩ := generateNewConcerns_ok_core h
  refine ⟨Nat.lt_succ_self _, rfl, rfl, rfl, ?_⟩
  intro now2 rc2 wc2 v2 m3 h2
  obtain ⟨rfl, rfl⟩ := generateNewConcerns_ok_core h2
  exact Nat.lt_succ_self _

/-- Results of the sample generation used as the C7 witness. -/
def generatedValue : RWConcernDefault :=
  ⟨1, 11, some ⟨ReadConcernLevel.kLocalReadConcern⟩, none⟩

/-- The manager after the sample generation. -/
def managerAfterGen : Manager := ⟨initialCacheState, 1, none⟩

/-- C7 witness: generating local-read-concern defaults from the fresh manager
leaves its cache untouched. -/
theorem generateNewConcerns_fresh_epoch_and_frame_witness :
    managerAfterGen.defaults = initialManager.defaults :=
  (generateNewConcerns_fresh_epoch_and_frame initialManager 11
    (some ⟨ReadConcernLevel.kLocalReadConcern⟩) none generatedValue
    managerAfterGen rfl).2.2.1

/-- C8: generateNewConcerns fails synchronously with a validation error when
both optional concerns are absent, and likewise when a present read concern
has an unsuitable level or a present write concern is unsuitable. -/
theorem generateNewConcerns_validation (m : Manager) (now : Nat)
    (rc : Option ReadConcern) (wc : Option WriteConcern)
    (h : (rc = none ∧ wc = none) ∨
         (∃ r, rc = some r ∧ isSuitableReadConcernLevel r.level = false) ∨
         (∃ w, wc = some w ∧ isSuitableWriteConcern w = false)) :
    generateNewConcerns m now rc wc = Except.error RWCError.validationError := by
  rcases h with ⟨rfl, rfl⟩ | ⟨r, rfl, hr⟩ | ⟨w, rfl, hw⟩
  · simp [generateNewConcerns]
  · simp [generateNewConcerns, validateOptional, checkSuitabilityAsDefaultRC, hr]
  · cases rc with
    | none =>
      simp [generateNewConcerns, validateOptional, checkSuitabilityAsDefaultWC, hw]
    | some r =>
      by_cases hr : isSuitableReadConcernLevel r.level
      · simp [generateNewConcerns, validateOptional, checkSuitabilityAsDefaultRC,
          checkSuitabilityAsDefaultWC, hr, hw]
      · simp [generateNewConcerns, validateOptional, checkSuitabilityAsDefaultRC,
          hr]

/-- C8 witness: generating with neither concern fails with a validation
error. -/
theorem generateNewConcerns_validation_witness :
    generateNewConcerns initialManager 0 none none =
      Except.error RWCError.validationError :=
  generateNewConcerns_validation initialManager 0 none none (Or.inl ⟨rfl, rfl⟩)

/-- C9: the implicit-majority flag is set exactly once — the first call on an
unset flag records its value, and a second call with a different value fails
fast with an invariant (programming) error. -/
theorem setImplicitDefaultWriteConcernMajority_startup_only (m : Manager)
    (b b2 : Bool) (h0 : m.implicitDefaultWriteConcernMajority = none)
    (h1 : b2 ≠ b) :
    ∃ m2, setImplicitDefaultWriteConcernMajority m b = Except.ok m2 ∧
      m2.implicitDefaultWriteConcernMajority = some b ∧
      setImplicitDefaultWriteConcernMajority m2 b2 =
        Except.error RWCError.invariantViolation := by
  refine ⟨{ m with implicitDefaultWriteConcernMajority := some b }, ?_, rfl, ?_⟩
  · simp [setImplicitDefaultWriteConcernMajority, h0]
  · have h2 : b ≠ b2 := Ne.symm h1
    simp [setImplicitDefaultWriteConcernMajority, h2]

/-- C9 witness: setting the flag to true on the fresh manager succeeds, and
then setting it to false is an invariant error. -/
theorem setImplicitDefaultWriteConcernMajority_startup_only_witness :
    ∃ m2, setImplicitDefaultWriteConcernMajority initialManager true =
        Except.ok m2 ∧
      m2.implicitDefaultWriteConcernMajority = some true ∧
      setImplicitDefaultWriteConcernMajority m2 false =
        Except.error RWCError.invariantViolation :=
  setImplicitDefaultWriteConcernMajority_startup_only initialManager true false
    rfl (by decide)

/-! ### Singleflight (C3) -/

/-- Running a concatenation of event lists runs them in sequence. -/
lemma sfRun_append (s : SingleflightState) (l1 l2 : List SFEvent) :
    sfRun s (l1 ++ l2) = sfRun (sfRun s l1) l2 := by
  induction l1 generalizing s with
  | nil => rfl
  | cons e es ih => simp [sfRun, ih]

/-- While a fetch is in flight and nothing is installed, arriving readers
only accumulate as waiters: no further fetch is dispatched. -/
lemma sfRun_arrives_inflight (is : List Nat) (w : List Nat) (fc : Nat) :
    sfRun ⟨none, true, w, fc, []⟩ (is.map SFEvent.arrive) =
      ⟨none, true, is.reverse ++ w, fc, []⟩ := by
  induction is generalizing w with
  | nil => rfl
  | cons i rest ih =>
    have h0 : sfStep ⟨none, true, w, fc, []⟩ (SFEvent.arrive i) =
        ⟨none, true, i :: w, fc, []⟩ := rfl
    simp only [List.map_cons, sfRun, h0, ih (i :: w), List.reverse_cons,
      List.append_assoc, List.cons_append, List.nil_append]

/-- C3: any number of readers arriving while the cache is Absent — all before
the dispatched fetch completes — cause exactly one call to the fetch
collaborator, and every one of them is delivered the one fetched value. -/
theorem coldMiss_singleflight (readers : List Nat) (v : Option RWConcernDefault)
    (h : readers ≠ []) :
    (sfRun initSingleflight (readers.map SFEvent.arrive ++
      [SFEvent.fetchComplete v])).fetchCount = 1 ∧
    (∀ i ∈ readers, (i, v) ∈ (sfRun initSingleflight
      (readers.map SFEvent.arrive ++ [SFEvent.fetchComplete v])).delivered) ∧
    (∀ p ∈ (sfRun initSingleflight (readers.map SFEvent.arrive ++
      [SFEvent.fetchComplete v])).delivered, p.2 = v) := by
  cases readers with
  | nil => exact absurd rfl h
  | cons i0 rest =>
    have h0 : sfStep initSingleflight (SFEvent.arrive i0) =
        ⟨none, true, [i0], 1, []⟩ := rfl
    have h1 : sfRun initSingleflight ((i0 :: rest).map SFEvent.arrive) =
        ⟨none, true, rest.reverse ++ [i0], 1, []⟩ := by
      simp only [List.map_cons, sfRun, h0]
      exact sfRun_arrives_inflight rest [i0] 1
    have hrun : sfRun initSingleflight ((i0 :: rest).map SFEvent.arrive ++
        [SFEvent.fetchComplete v]) =
        ⟨some v, false, [], 1, (rest.reverse ++ [i0]).map (fun i => (i, v))⟩ := by
      rw [sfRun_append, h1]
      simp [sfRun, sfStep]
    rw [hrun]
    refine ⟨rfl, ?_, ?_⟩
    · intro i hi
      simp only [List.mem_map]
      refine ⟨i, ?_, rfl⟩
      simp only [List.mem_append, List.mem_reverse, List.mem_singleton]
      simp only [List.mem_cons] at hi
      tauto
    · intro p hp
      simp only [List.mem_map] at hp
      obtain ⟨i, _, rfl⟩ := hp
      rfl

/-- C3 witness: three readers on a cold miss cause exactly one fetch. -/
theorem coldMiss_singleflight_witness :
    (sfRun initSingleflight ([0, 1, 2].map SFEvent.arrive ++
      [SFEvent.fetchComplete (some sampleE1)])).fetchCount = 1 :=
  (coldMiss_singleflight [0, 1, 2] (some sampleE1) (by decide)).1

/-! ### Epoch monotonicity (C2) -/

/-- Ordering on optionally-cached epochs: an absent epoch is below
everything, and a present epoch never falls back to absent. -/
def epochLE : Option Nat → Option Nat → Prop
  | none, _ => True
  | some _, none => False
  | some e1, some e2 => e1 ≤ e2

lemma epochLE_refl (a : Option Nat) : epochLE a a := by
  cases a <;> simp [epochLE]

lemma epochLE_trans {a b c : Option Nat} (h1 : epochLE a b)
    (h2 : epochLE b c) : epochLE a c := by
  cases a <;> cases b <;> cases c <;> simp [epochLE] at * <;> omega

/-- Invalidation changes no cached value. -/
lemma cachedValue_invalidate (c : CacheState) :
    cachedValue (invalidate c) = cachedValue c := by
  cases hc : c.entry <;> simp [invalidate, cachedValue, hc]

/-- A refresh that finds the authoritative document present never lowers the
cached epoch. -/
lemma cachedEpoch_refresh_mono (c : CacheState) (f : RWConcernDefault)
    (now : Nat) :
    epochLE (cachedEpoch c) (cachedEpoch (refreshIfNecessary c (some f) now)) := by
  unfold refreshIfNecessary
  cases hcv : cachedValue c with
  | none =>
    have he : cachedEpoch c = none := by simp [cachedEpoch, hcv]
    rw [he]
    exact trivial
  | some cv =>
    have he : cachedEpoch c = some cv.epoch := by simp [cachedEpoch, hcv]
    have hs : shouldReplaceCache (some cv) (some f) =
        decide (cv.epoch < f.epoch) := rfl
    rw [he, hs]
    by_cases hlt : cv.epoch < f.epoch
    · rw [decide_eq_true hlt, if_pos rfl]
      show cv.epoch ≤ f.epoch
      exact Nat.le_of_lt hlt
    · rw [decide_eq_false hlt, if_neg Bool.false_ne_true]
      have hsame : cachedEpoch ⟨c.entry, false⟩ = cachedEpoch c := rfl
      rw [hsame, he]
      show cv.epoch ≤ cv.epoch
      exact Nat.le_refl _

/-- Under an operation allowed by `allowedOp`, the cached epoch never
regresses. -/
lemma cachedEpoch_step_mono (c : CacheState) (op : CacheOp)
    (h : allowedOp op = true) : epochLE (cachedEpoch c) (cachedEpoch (step c op)) := by
  cases op with
  | invalidateOp =>
    simp only [step, cachedEpoch, cachedValue_invalidate]
    exact epochLE_refl _
  | refreshOp fetched now =>
    cases fetched with
    | none => simp [allowedOp] at h
    | some f => exact cachedEpoch_refresh_mono c f now
  | setDefaultOp rwc now => simp [allowedOp] at h
  | readOp fetched now =>
    cases hc : c.entry with
    | none =>
      have he : cachedEpoch c = none := by simp [cachedEpoch, cachedValue, hc]
      rw [he]
      exact trivial
    | some e => simp [step, read, hc, epochLE_refl]

/-- An epoch observed at one operation is at least the epoch cached before
it, and is exactly the epoch cached after it. -/
lemma opObservation_sound (c : CacheState) (op : CacheOp) (o : Nat)
    (ho : o ∈ opObservation c op) :
    epochLE (cachedEpoch c) (some o) ∧ cachedEpoch (step c op) = some o := by
  cases op with
  | invalidateOp => simp [opObservation] at ho
  | refreshOp fetched now => simp [opObservation] at ho
  | setDefaultOp rwc now => simp [opObservation] at ho
  | readOp fetched now =>
    cases hc : c.entry with
    | some e =>
      cases he : e.value with
      | none => simp [opObservation, read, hc, he] at ho
      | some v =>
        simp only [opObservation, read, hc, he, List.mem_singleton] at ho
        subst ho
        constructor
        · simp [cachedEpoch, cachedValue, hc, he, epochLE]
        · simp [step, read, hc, cachedEpoch, cachedValue, he]
    | none =>
      cases hf : fetched with
      | none => simp [opObservation, read, hc, hf] at ho
      | some v =>
        simp only [opObservation, read, hc, hf, List.mem_singleton] at ho
        subst ho
        constructor
        · simp [cachedEpoch, cachedValue, hc, epochLE]
        · simp [step, read, hc, hf, cachedEpoch, cachedValue]

/-- Each operation observes at most one epoch. -/
lemma opObservation_small (c : CacheState) (op : CacheOp) :
    opObservation c op = [] ∨ ∃ o, opObservation c op = [o] := by
  cases op with
  | invalidateOp => exact Or.inl rfl
  | refreshOp fetched now => exact Or.inl rfl
  | setDefaultOp rwc now => exact Or.inl rfl
  | readOp fetched now =>
    simp only [opObservation]
    cases (read c fetched now).result with
    | none => exact Or.inl rfl
    | some v => exact Or.inr ⟨v.epoch, rfl⟩

/-- A list bounded below by its intended head chains onto it. -/
lemma chain_le_cons (o : Nat) (l : List Nat) (hall : ∀ x ∈ l, o ≤ x)
    (hl : List.Chain' (fun a b => a ≤ b) l) :
    List.Chain' (fun a b => a ≤ b) (o :: l) := by
  cases l with
  | nil => simp
  | cons b t => exact List.Chain'.cons (hall b (List.mem_cons_self b t)) hl

/-- Monotonicity of observed epochs along any allowed history, with the bound
that every observation dominates the starting cached epoch. -/
lemma runObs_mono_aux (ops : List CacheOp)
    (hops : ∀ op ∈ ops, allowedOp op = true) (c : CacheState) :
    List.Chain' (fun a b => a ≤ b) (runObs c ops) ∧
    ∀ o ∈ runObs c ops, epochLE (cachedEpoch c) (some o) := by
  induction ops generalizing c with
  | nil => simp [runObs]
  | cons op ops ih =>
    have hop : allowedOp op = true := hops op (List.mem_cons_self op ops)
    have hrest : ∀ x ∈ ops, allowedOp x = true := fun x hx =>
      hops x (List.mem_cons_of_mem op hx)
    have IH := ih hrest (step c op)
    have hmono := cachedEpoch_step_mono c op hop
    rcases opObservation_small c op with hobs | ⟨o, hobs⟩
    · simp only [runObs, hobs, List.nil_append]
      refine ⟨IH.1, fun x hx => epochLE_trans hmono (IH.2 x hx)⟩
    · have hsound := opObservation_sound c op o (by simp [hobs])
      simp only [runObs, hobs, List.singleton_append]
      constructor
      · refine chain_le_cons o _ (fun x hx => ?_) IH.1
        have := IH.2 x hx
        rw [hsound.2] at this
        exact this
      · intro x hx
        rcases List.mem_cons.mp hx with rfl | hx
        · exact hsound.1
        · exact epochLE_trans hmono (IH.2 x hx)

/-- C2 (amended): along any per-process history of invalidations, refreshes
that find the authoritative document present, and concurrent reads — with no
setDefault — the epochs observed by the reads, starting from the
never-populated cache, form a non-decreasing sequence. -/
theorem readEpochs_monotonic (ops : List CacheOp)
    (hops : ∀ op ∈ ops, allowedOp op = true) :
    List.Chain' (fun a b => a ≤ b) (runObs initialCacheState ops) :=
  (runObs_mono_aux ops hops initialCacheState).1

/-- C2 witness: a cold-miss read of the epoch-1 value, an invalidation, a
refresh to epoch 2 and a final read observe the chain [1, 2]. -/
theorem readEpochs_monotonic_witness :
    List.Chain' (fun a b => a ≤ b) (runObs initialCacheState
      [CacheOp.readOp (some sampleE1) 0, CacheOp.invalidateOp,
       CacheOp.refreshOp (some sampleE2) 1, CacheOp.readOp none 2]) :=
  readEpochs_monotonic
    [CacheOp.readOp (some sampleE1) 0, CacheOp.invalidateOp,
     CacheOp.refreshOp (some sampleE2) 1, CacheOp.readOp none 2] (by decide)

/-- C2 counterexample: the claim as stated quantifies over histories that
include setDefault, which installs unconditionally; after a read observes
epoch 5, a setDefault of an epoch-1 value makes the next read observe 1, so
the observed sequence [5, 1] is not non-decreasing. -/
theorem readEpochs_monotonic_counterexample :
    ¬ List.Chain' (fun a b => a ≤ b) (runObs initialCacheState
      [CacheOp.setDefaultOp sampleE5 0, CacheOp.readOp none 0,
       CacheOp.setDefaultOp sampleE1 1, CacheOp.readOp none 1]) := by
  intro h
  have hobs : runObs initialCacheState
      [CacheOp.setDefaultOp sampleE5 0, CacheOp.readOp none 0,
       CacheOp.setDefaultOp sampleE1 1, CacheOp.readOp none 1] = [5, 1] := rfl
  rw [hobs] at h
  have h51 : (5 : Nat) ≤ 1 := (List.chain'_cons.mp h).1
  omega

end ReadWriteConcernDefaults
